import Mathlib

/-!
# Verification of the Logger rotation / buffering subsystem

A shallow embedding of `src/Logger.cpp` / `src/Logger.h` (nuncio-bitis/Logger).
The logger's process-wide static state becomes an explicit `LoggerState`
record; every operation of the C++ class becomes a pure state-passing
function translated line by line from the source.  File-system effects
(writes to the active file, writes to stdout, `close`, `unlink`) are
recorded as growing trace lists in the state, and the directory scan is
parameterised by an abstract directory view `DirFS`.

String handling: C++ `std::string::substr` / `size()` act on character
counts; we model strings as Lean `String` and use character-list based
`strTake` / `strDrop` / `String.length`, which coincide with the C++
operations on the ASCII names involved.
-/

/-- Character-count substring from the front: models C++ `s.substr(0, n)`. -/
def strTake (s : String) (n : Nat) : String := String.mk (s.toList.take n)

/-- Character-count substring from index `n` to the end: models C++ `s.substr(n)`. -/
def strDrop (s : String) (n : Nat) : String := String.mk (s.toList.drop n)

/-- Index of the last occurrence of `c`, or `-1` when absent: models
C++ `std::string::find_last_of` whose `npos` result lands in an `int` as `-1`. -/
def lastIdxOf (c : Char) (l : List Char) : Int :=
  match l.reverse.findIdx? (fun x => x = c) with
  | none => -1
  | some j => (l.length : Int) - 1 - j

/-- Left-pad the decimal rendering of `n` with zeroes to width `w`:
models the zero-padded `strftime` conversions (`%Y`, `%m`, `%d`, `%H`, `%M`, `%S`). -/
def padNum (w : Nat) (n : Nat) : String :=
  String.mk (List.replicate (w - (Nat.repr n).length) '0') ++ Nat.repr n

/-- A calendar date as broken down by `localtime`. -/
structure DateT where
  year : Nat
  month : Nat
  day : Nat
deriving DecidableEq, Repr

/-- A wall-clock time as broken down by `localtime`, with the millisecond
component the code derives from `clock_gettime`. -/
structure TimeT where
  hour : Nat
  minute : Nat
  second : Nat
  msec : Nat
deriving DecidableEq, Repr

/-- The current date and time, the external input of the time-string helpers. -/
structure DateTime where
  date : DateT
  time : TimeT
deriving DecidableEq, Repr

/-- `Logger::GetDateStr`: `YYYY-MM-DD` when `useSep`, else `YYYYMMDD`
(`strftime` with `%F` resp. `%Y%m%d`). -/
def GetDateStr (useSep : Bool) (d : DateT) : String :=
  if useSep then
    padNum 4 d.year ++ "-" ++ padNum 2 d.month ++ "-" ++ padNum 2 d.day
  else
    padNum 4 d.year ++ padNum 2 d.month ++ padNum 2 d.day

/-- The `HH:MM:SS` / `HHMMSS` part shared by `GetTimeStr` and `TimeStamp`
(`strftime` with `%T` resp. `%H%M%S`). -/
def timeHMS (useSep : Bool) (t : TimeT) : String :=
  if useSep then
    padNum 2 t.hour ++ ":" ++ padNum 2 t.minute ++ ":" ++ padNum 2 t.second
  else
    padNum 2 t.hour ++ padNum 2 t.minute ++ padNum 2 t.second

/-- `Logger::GetTimeStr`: time string, optionally with `.mmm` milliseconds. -/
def GetTimeStr (useSep : Bool) (useMsec : Bool) (t : TimeT) : String :=
  timeHMS useSep t ++ (if useMsec then "." ++ padNum 3 t.msec else "")

/-- `Logger::TimeStamp`: date, space, time, always followed by `.mmm`. -/
def TimeStamp (useSep : Bool) (now : DateTime) : String :=
  (if useSep then GetDateStr true now.date ++ " " ++ timeHMS true now.time
   else GetDateStr false now.date ++ " " ++ timeHMS false now.time)
  ++ "." ++ padNum 3 now.time.msec

/-- The `Severity` enum values from `Logger.h`, mirroring `syslog.h`. -/
def eLOG_CRIT : Int := 2

/-- Severity `eLOG_HIGH`. -/
def eLOG_HIGH : Int := 3

/-- Severity `eLOG_MED`. -/
def eLOG_MED : Int := 4

/-- Severity `eLOG_LOW`. -/
def eLOG_LOW : Int := 5

/-- Severity `eLOG_INFO`. -/
def eLOG_INFO : Int := 6

/-- Severity `eLOG_DEBUG`. -/
def eLOG_DEBUG : Int := 7

/-- `eLOG_LAST = eLOG_DEBUG` from the enum. -/
def eLOG_LAST : Int := eLOG_DEBUG

/-- The `s_severityString` map (`std::map` `operator[]` yields `""` off-range). -/
def severityTag (s : Int) : String :=
  if s = eLOG_CRIT then "CRIT_"
  else if s = eLOG_HIGH then "HIGH_"
  else if s = eLOG_MED then "MED__"
  else if s = eLOG_LOW then "LOW__"
  else if s = eLOG_INFO then "INFO_"
  else if s = eLOG_DEBUG then "DEBUG"
  else ""

/-- `Logger::severityToString`: the 5-character tag for in-range severities,
empty otherwise.  (`setw(4)` left-justified never truncates the 5-char tags.) -/
def severityToString (s : Int) : String :=
  if eLOG_CRIT ≤ s ∧ s ≤ eLOG_LAST then severityTag s else ""

/-- The logger's static state, with trace fields recording external effects:
`fileWritten` the text appended to log files, `stdoutWritten` the text sent to
the console, `closedFiles` the names on which `close()` was called,
`deletedFiles` the names passed to `unlink()`, and `madeNullString` which is
set exactly when `Get()`'s empty-buffer branch (the `return NULL;` building a
`std::string` from a null pointer) executes. -/
structure LoggerState where
  leastSeverity : Int
  buffering : Bool
  bufferList : List String
  logFileList : List String
  logFileName : String
  fileNameBase : String
  maxFileSize : Nat
  maxFileNumber : Nat
  usingStdOut : Bool
  logFileOpen : Bool
  fileSize : Nat
  now : DateTime
  cwd : String
  fileWritten : List String
  stdoutWritten : List String
  closedFiles : List String
  deletedFiles : List String
  madeNullString : Bool
deriving DecidableEq, Repr

/-- The new rotated file name built in `Logger::AddNewFileName`:
`mFileNameBase + "_" + GetDateStr(false) + "_" + GetTimeStr(false, false) + ".log"`. -/
def newLogName (st : LoggerState) : String :=
  st.fileNameBase ++ "_" ++ GetDateStr false st.now.date ++ "_"
    ++ GetTimeStr false false st.now.time ++ ".log"

/-- `Logger::AddNewFileName`: push the new name onto the list and make it current. -/
def AddNewFileName (st : LoggerState) : LoggerState :=
  { st with logFileList := st.logFileList ++ [newLogName st], logFileName := newLogName st }

/-- The `while (mLogFileList.size() > mMaxFileNumber)` loop of
`Logger::EnforceLogFileLimits`: repeatedly `unlink` and erase the head.
Returns the surviving list and the unlinked names in deletion order. -/
def evictLoop (maxN : Nat) : List String → List String × List String
  | [] => ([], [])
  | f :: rest =>
    if maxN < (f :: rest).length then
      let p := evictLoop maxN rest
      (p.1, f :: p.2)
    else
      (f :: rest, [])

/-- The eviction half of `EnforceLogFileLimits` acting on the state. -/
def evictState (st : LoggerState) : LoggerState :=
  let p := evictLoop st.maxFileNumber st.logFileList
  { st with logFileList := p.1, deletedFiles := st.deletedFiles ++ p.2 }

/-- The size-check half of `EnforceLogFileLimits` (lines 448-460): when the
active file exists and `Size() >= mMaxFileSize`, close it, add a new name and
open the fresh file (modelled as size 0). -/
def rotateStep (st : LoggerState) : LoggerState :=
  if st.logFileOpen = true ∧ st.maxFileSize ≤ st.fileSize then
    let closed := { st with logFileOpen := false,
                            closedFiles := st.closedFiles ++ [st.logFileName] }
    let named := AddNewFileName closed
    { named with logFileOpen := true, fileSize := 0 }
  else st

/-- `Logger::EnforceLogFileLimits`: rotation check followed by the eviction loop. -/
def EnforceLogFileLimits (st : LoggerState) : LoggerState :=
  evictState (rotateStep st)

/-- The output part of `Logger::writeLog`: send the pending text to stdout when
mirroring, and append it to the open log file (growing its on-disk size). -/
def appendOut (line : String) (st : LoggerState) : LoggerState :=
  let st1 := if st.usingStdOut = true then
               { st with stdoutWritten := st.stdoutWritten ++ [line] }
             else st
  if st1.logFileOpen = true then
    { st1 with fileWritten := st1.fileWritten ++ [line],
               fileSize := st1.fileSize + line.length }
  else st1

/-- `Logger::writeLog`: emit the formatted text, then run the file-limit check. -/
def writeLog (line : String) (st : LoggerState) : LoggerState :=
  EnforceLogFileLimits (appendOut line st)

/-! ## Field-preservation lemmas for the write path -/

@[simp] lemma evictState_bufferList (st : LoggerState) :
    (evictState st).bufferList = st.bufferList := rfl

@[simp] lemma evictState_buffering (st : LoggerState) :
    (evictState st).buffering = st.buffering := rfl

@[simp] lemma evictState_leastSeverity (st : LoggerState) :
    (evictState st).leastSeverity = st.leastSeverity := rfl

@[simp] lemma evictState_logFileOpen (st : LoggerState) :
    (evictState st).logFileOpen = st.logFileOpen := rfl

@[simp] lemma evictState_fileWritten (st : LoggerState) :
    (evictState st).fileWritten = st.fileWritten := rfl

@[simp] lemma evictState_madeNullString (st : LoggerState) :
    (evictState st).madeNullString = st.madeNullString := rfl

@[simp] lemma evictState_maxFileNumber (st : LoggerState) :
    (evictState st).maxFileNumber = st.maxFileNumber := rfl

@[simp] lemma evictState_closedFiles (st : LoggerState) :
    (evictState st).closedFiles = st.closedFiles := rfl

@[simp] lemma evictState_logFileName (st : LoggerState) :
    (evictState st).logFileName = st.logFileName := rfl

@[simp] lemma rotateStep_bufferList (st : LoggerState) :
    (rotateStep st).bufferList = st.bufferList := by
  simp only [rotateStep, AddNewFileName]; split <;> rfl

@[simp] lemma rotateStep_buffering (st : LoggerState) :
    (rotateStep st).buffering = st.buffering := by
  simp only [rotateStep, AddNewFileName]; split <;> rfl

@[simp] lemma rotateStep_leastSeverity (st : LoggerState) :
    (rotateStep st).leastSeverity = st.leastSeverity := by
  simp only [rotateStep, AddNewFileName]; split <;> rfl

@[simp] lemma rotateStep_fileWritten (st : LoggerState) :
    (rotateStep st).fileWritten = st.fileWritten := by
  simp only [rotateStep, AddNewFileName]; split <;> rfl

@[simp] lemma rotateStep_madeNullString (st : LoggerState) :
    (rotateStep st).madeNullString = st.madeNullString := by
  simp only [rotateStep, AddNewFileName]; split <;> rfl

@[simp] lemma rotateStep_maxFileNumber (st : LoggerState) :
    (rotateStep st).maxFileNumber = st.maxFileNumber := by
  simp only [rotateStep, AddNewFileName]; split <;> rfl

@[simp] lemma rotateStep_logFileOpen (st : LoggerState) :
    (rotateStep st).logFileOpen = st.logFileOpen := by
  simp only [rotateStep, AddNewFileName]
  split
  case isTrue h => simp [h.1]
  case isFalse h => rfl

@[simp] lemma EnforceLogFileLimits_bufferList (st : LoggerState) :
    (EnforceLogFileLimits st).bufferList = st.bufferList := by
  simp [EnforceLogFileLimits]

@[simp] lemma EnforceLogFileLimits_buffering (st : LoggerState) :
    (EnforceLogFileLimits st).buffering = st.buffering := by
  simp [EnforceLogFileLimits]

@[simp] lemma EnforceLogFileLimits_leastSeverity (st : LoggerState) :
    (EnforceLogFileLimits st).leastSeverity = st.leastSeverity := by
  simp [EnforceLogFileLimits]

@[simp] lemma EnforceLogFileLimits_logFileOpen (st : LoggerState) :
    (EnforceLogFileLimits st).logFileOpen = st.logFileOpen := by
  simp [EnforceLogFileLimits]

@[simp] lemma EnforceLogFileLimits_fileWritten (st : LoggerState) :
    (EnforceLogFileLimits st).fileWritten = st.fileWritten := by
  simp [EnforceLogFileLimits]

@[simp] lemma EnforceLogFileLimits_madeNullString (st : LoggerState) :
    (EnforceLogFileLimits st).madeNullString = st.madeNullString := by
  simp [EnforceLogFileLimits]

@[simp] lemma appendOut_bufferList (line : String) (st : LoggerState) :
    (appendOut line st).bufferList = st.bufferList := by
  simp only [appendOut]; split <;> split <;> rfl

@[simp] lemma appendOut_buffering (line : String) (st : LoggerState) :
    (appendOut line st).buffering = st.buffering := by
  simp only [appendOut]; split <;> split <;> rfl

@[simp] lemma appendOut_leastSeverity (line : String) (st : LoggerState) :
    (appendOut line st).leastSeverity = st.leastSeverity := by
  simp only [appendOut]; split <;> split <;> rfl

@[simp] lemma appendOut_logFileOpen (line : String) (st : LoggerState) :
    (appendOut line st).logFileOpen = st.logFileOpen := by
  simp only [appendOut]; split <;> split <;> rfl

@[simp] lemma appendOut_madeNullString (line : String) (st : LoggerState) :
    (appendOut line st).madeNullString = st.madeNullString := by
  simp only [appendOut]; split <;> split <;> rfl

@[simp] lemma appendOut_logFileList (line : String) (st : LoggerState) :
    (appendOut line st).logFileList = st.logFileList := by
  simp only [appendOut]; split <;> split <;> rfl

@[simp] lemma appendOut_logFileName (line : String) (st : LoggerState) :
    (appendOut line st).logFileName = st.logFileName := by
  simp only [appendOut]; split <;> split <;> rfl

@[simp] lemma appendOut_closedFiles (line : String) (st : LoggerState) :
    (appendOut line st).closedFiles = st.closedFiles := by
  simp only [appendOut]; split <;> split <;> rfl

@[simp] lemma appendOut_maxFileSize (line : String) (st : LoggerState) :
    (appendOut line st).maxFileSize = st.maxFileSize := by
  simp only [appendOut]; split <;> split <;> rfl

@[simp] lemma appendOut_maxFileNumber (line : String) (st : LoggerState) :
    (appendOut line st).maxFileNumber = st.maxFileNumber := by
  simp only [appendOut]; split <;> split <;> rfl

@[simp] lemma appendOut_fileNameBase (line : String) (st : LoggerState) :
    (appendOut line st).fileNameBase = st.fileNameBase := by
  simp only [appendOut]; split <;> split <;> rfl

@[simp] lemma appendOut_now (line : String) (st : LoggerState) :
    (appendOut line st).now = st.now := by
  simp only [appendOut]; split <;> split <;> rfl

lemma appendOut_fileWritten_open (line : String) (st : LoggerState)
    (h : st.logFileOpen = true) :
    (appendOut line st).fileWritten = st.fileWritten ++ [line] := by
  simp only [appendOut]; split <;> simp [h]

lemma appendOut_fileSize_open (line : String) (st : LoggerState)
    (h : st.logFileOpen = true) :
    (appendOut line st).fileSize = st.fileSize + line.length := by
  simp only [appendOut]; split <;> simp [h]

@[simp] lemma writeLog_bufferList (line : String) (st : LoggerState) :
    (writeLog line st).bufferList = st.bufferList := by
  simp [writeLog]

@[simp] lemma writeLog_buffering (line : String) (st : LoggerState) :
    (writeLog line st).buffering = st.buffering := by
  simp [writeLog]

@[simp] lemma writeLog_leastSeverity (line : String) (st : LoggerState) :
    (writeLog line st).leastSeverity = st.leastSeverity := by
  simp [writeLog]

@[simp] lemma writeLog_logFileOpen (line : String) (st : LoggerState) :
    (writeLog line st).logFileOpen = st.logFileOpen := by
  simp [writeLog]

@[simp] lemma writeLog_madeNullString (line : String) (st : LoggerState) :
    (writeLog line st).madeNullString = st.madeNullString := by
  simp [writeLog]

lemma writeLog_fileWritten_open (line : String) (st : LoggerState)
    (h : st.logFileOpen = true) :
    (writeLog line st).fileWritten = st.fileWritten ++ [line] := by
  simp [writeLog, appendOut_fileWritten_open line st h]

/-! ## The remaining operations -/

/-- `Logger::Get`: pop the oldest buffered line.  The empty-buffer branch of the
C++ code executes `return NULL;`, constructing `std::string` from a null
pointer; we model it as `none` and set the `madeNullString` marker. -/
def Get (st : LoggerState) : Option String × LoggerState :=
  match st.bufferList with
  | [] => (none, { st with madeNullString := true })
  | l :: rest => (some l, { st with bufferList := rest })

/-- The `while (mBufferList.size()) { m_outString << Get(); writeLog(m_outString); }`
loop of `Logger::WriteToFile`.  The `Option.getD` default stands for whatever
string the undefined-behaviour branch of `Get` would produce; the loop guard
keeps that branch unreachable (claim C10). -/
def drainLoop (st : LoggerState) : LoggerState :=
  if h : st.bufferList.isEmpty then st
  else
    let p := Get st
    drainLoop (writeLog (p.1.getD "") p.2)
termination_by st.bufferList.length
decreasing_by
  rcases hb : st.bufferList with _ | ⟨l, rest⟩
  · rw [hb] at h; simp at h
  · simp [Get, hb]

/-- `Logger::WriteToFile`: drain the buffer, then `Flush()` (which only pushes
OS stream buffers and does not change the modelled state). -/
def WriteToFile (st : LoggerState) : LoggerState :=
  drainLoop st

/-- `Logger::SetBuffering`: leaving buffering flushes, entering it clears the
stale buffer; the flag is assigned afterwards in every case. -/
def SetBuffering (enable : Bool) (st : LoggerState) : LoggerState :=
  if st.buffering = true ∧ enable = false then
    let st1 := WriteToFile st
    { st1 with buffering := enable }
  else if st.buffering = false ∧ enable = true then
    { st with bufferList := [], buffering := enable }
  else
    { st with buffering := enable }

/-- The formatted line built inside `Logger::log`:
timestamp, bracketed padded severity tag, message, newline. -/
def logLine (s : Int) (input : String) (st : LoggerState) : String :=
  TimeStamp true st.now ++ " [" ++ severityToString s ++ "] " ++ input ++ "\n"

/-- `Logger::log(Severity, const std::string &)`: threshold check, format, emit. -/
def log (s : Int) (input : String) (st : LoggerState) : LoggerState :=
  if s ≤ st.leastSeverity then writeLog (logLine s input st) st else st

/-- `Logger::setSeverity`: out-of-range values are rejected with an error line;
in-range values are logged and installed. -/
def setSeverity (s : Int) (st : LoggerState) : Bool × LoggerState :=
  if s < eLOG_CRIT ∨ eLOG_LAST < s then
    (false,
     writeLog (TimeStamp true st.now ++ " ERROR: Invalid verbosity specified, "
               ++ toString s ++ "\n") st)
  else
    (true,
     writeLog (TimeStamp true st.now ++ " Set severity level to "
               ++ severityTag s ++ "\n")
       { st with leastSeverity := s })

/-- An abstract view of the directory tree for `MakeFileList`: the listing of
each directory, and whether `chdir` / `opendir` succeed on a given path. -/
structure DirFS where
  entries : String → List String
  chdirOk : String → Bool
  opendirOk : String → Bool

/-- `Logger::MakeFileList`, translated branch by branch.  The returned `Bool`
is the C++ return value; note that the `opendir`-failure branch executes
`return EXIT_FAILURE;`, which converts to `true` in the `bool` return type,
and returns without restoring the saved working directory. -/
def MakeFileList (fs : DirFS) (st : LoggerState) : Bool × LoggerState :=
  if st.fileNameBase = "" then (false, st)
  else
    let workingDir := st.cwd
    let idx : Int := lastIdxOf '/' st.fileNameBase.toList
    let logDir :=
      if 0 ≤ idx then
        if st.fileNameBase.toList.head? = some '/' then
          strTake st.fileNameBase idx.toNat
        else
          workingDir ++ strTake st.fileNameBase idx.toNat
      else workingDir
    let st1 := if fs.chdirOk logDir then { st with cwd := logDir } else st
    let st2 := { st1 with logFileList := [] }
    let stem := strDrop st.fileNameBase (idx + 1).toNat
    let nameLength :=
      stem.length + ("_yyyy-MM-dd" : String).length + ("_HHmmss" : String).length
    if fs.opendirOk logDir then
      let hits := (fs.entries logDir).filter
        (fun e => e.length == nameLength && strDrop e stem.length == stem)
      let st3 := { st2 with logFileList := hits.map (fun e => logDir ++ "/" ++ e) }
      let st4 := if fs.chdirOk workingDir then { st3 with cwd := workingDir } else st3
      (true, st4)
    else
      (true, st2)

/-- The selection rule as the spec states it, for comparison with the source's
`MakeFileList` filter.  Modelled from the spec: "select entries whose length
matches `stem + "_YYYY-MM-DD" + "_HHMMSS"` exactly and whose prefix equals
the stem". -/
def specScanMatch (stem entry : String) : Bool :=
  (entry.length == stem.length + ("_YYYY-MM-DD" : String).length
      + ("_HHMMSS" : String).length)
    && (strTake entry stem.length == stem)

/-- The file-name shape the spec claims for newly created rotated files.
Modelled from the spec: "File naming: `<baseName>_<YYYY-MM-DD>_<HHMMSS>.log`". -/
def specNewLogName (base : String) (now : DateTime) : String :=
  base ++ "_" ++ GetDateStr true now.date ++ "_"
    ++ GetTimeStr false false now.time ++ ".log"

/-! ## Concrete inputs used by witnesses and counterexamples -/

/-- A fixed clock reading: 2022-01-02 03:04:05.006. -/
def baseDT : DateTime := ⟨⟨2022, 1, 2⟩, ⟨3, 4, 5, 6⟩⟩

/-- A concrete logger state: file mode, open active file, threshold `eLOG_INFO`. -/
def baseSt : LoggerState :=
  { leastSeverity := 6, buffering := false, bufferList := [], logFileList := [],
    logFileName := "", fileNameBase := "log", maxFileSize := 1000000,
    maxFileNumber := 10, usingStdOut := false, logFileOpen := true, fileSize := 0,
    now := baseDT, cwd := "/w", fileWritten := [], stdoutWritten := [],
    closedFiles := [], deletedFiles := [], madeNullString := false }

/-- Concrete state with buffering enabled and an unrestrictive threshold. -/
def c1St : LoggerState := { baseSt with buffering := true, leastSeverity := 7 }

/-- Concrete state whose active file has outgrown `maxFileSize`. -/
def c6St : LoggerState :=
  { baseSt with logFileList := ["a"], logFileName := "a",
                maxFileSize := 100, fileSize := 200 }

/-- Concrete state with three buffered lines. -/
def c8St : LoggerState := { baseSt with buffering := true, bufferList := ["L1", "L2", "L3"] }

/-- Concrete state with a non-empty buffer. -/
def c10St : LoggerState := { baseSt with bufferList := ["a", "b"] }

/-- A directory view for the scan-filter claim: the working directory `/w`
holds one entry named exactly as a rotated file of stem `log` would be
per the spec's `<stem>_YYYY-MM-DD_HHMMSS` pattern. -/
def c2FS : DirFS :=
  { entries := fun d => if d = "/w" then ["log_2022-01-02_030405"] else []
    chdirOk := fun _ => true
    opendirOk := fun d => d == "/w" }

/-- A directory view where `/d` can be entered by `chdir` but `opendir` on it
fails (for example a directory with search permission but no read permission). -/
def c9FS : DirFS :=
  { entries := fun _ => []
    chdirOk := fun d => d == "/d"
    opendirOk := fun _ => false }

/-- Concrete state whose base name points into the directory `/d`. -/
def c9St : LoggerState := { baseSt with fileNameBase := "/d/log" }

/-! ## Helper lemmas: eviction and buffer drain -/

/-- The eviction loop keeps exactly the last `maxN` entries (dropping heads)
and unlinks the dropped heads in order. -/
lemma evictLoop_eq (maxN : Nat) (L : List String) :
    evictLoop maxN L = (L.drop (L.length - maxN), L.take (L.length - maxN)) := by
  induction L with
  | nil => simp [evictLoop]
  | cons f rest ih =>
    simp only [evictLoop]
    split
    case isTrue h =>
      have hk : (f :: rest).length - maxN = (rest.length - maxN) + 1 := by
        simp only [List.length_cons] at h ⊢; omega
      rw [ih, hk]
      simp
    case isFalse h =>
      have hk : (f :: rest).length - maxN = 0 := by
        simp only [List.length_cons] at h ⊢; omega
      rw [hk]
      simp

lemma evictState_logFileList (st : LoggerState) :
    (evictState st).logFileList =
      st.logFileList.drop (st.logFileList.length - st.maxFileNumber) := by
  simp [evictState, evictLoop_eq]

lemma evictState_deletedFiles (st : LoggerState) :
    (evictState st).deletedFiles =
      st.deletedFiles ++ st.logFileList.take (st.logFileList.length - st.maxFileNumber) := by
  simp [evictState, evictLoop_eq]

/-- Draining the buffer never executes the null-string branch of `Get`. -/
lemma drainLoop_madeNullString :
    ∀ (n : Nat) (st : LoggerState), st.bufferList.length = n →
      (drainLoop st).madeNullString = st.madeNullString := by
  intro n
  induction n with
  | zero =>
    intro st h
    have hnil : st.bufferList = [] := List.eq_nil_of_length_eq_zero h
    rw [drainLoop]
    simp [hnil]
  | succ n ih =>
    intro st h
    rcases hb : st.bufferList with _ | ⟨l, rest⟩
    · rw [hb] at h; simp at h
    · rw [drainLoop]
      simp only [hb, List.isEmpty_cons, Get, dite_false, Bool.false_eq_true,
        Option.getD_some]
      have hlen : (writeLog l { st with bufferList := rest }).bufferList.length = n := by
        rw [writeLog_bufferList]
        rw [hb] at h
        simpa using Nat.succ_injective h
      rw [ih _ hlen, writeLog_madeNullString]

/-- FIFO drain: with the log file open, draining writes exactly the buffered
lines in insertion order, empties the buffer, and leaves the file open and the
mode flags untouched. -/
lemma drainLoop_spec :
    ∀ (n : Nat) (st : LoggerState), st.bufferList.length = n →
      st.logFileOpen = true →
      (drainLoop st).bufferList = [] ∧
      (drainLoop st).fileWritten = st.fileWritten ++ st.bufferList ∧
      (drainLoop st).logFileOpen = true ∧
      (drainLoop st).buffering = st.buffering ∧
      (drainLoop st).leastSeverity = st.leastSeverity := by
  intro n
  induction n with
  | zero =>
    intro st h hopen
    have hnil : st.bufferList = [] := List.eq_nil_of_length_eq_zero h
    rw [drainLoop]
    simp [hnil, hopen]
  | succ n ih =>
    intro st h hopen
    rcases hb : st.bufferList with _ | ⟨l, rest⟩
    · rw [hb] at h; simp at h
    · rw [drainLoop]
      simp only [hb, List.isEmpty_cons, Get, dite_false, Bool.false_eq_true,
        Option.getD_some]
      set mid : LoggerState := { st with bufferList := rest } with hmid
      have hmidopen : mid.logFileOpen = true := hopen
      have hopen2 : (writeLog l mid).logFileOpen = true := by
        rw [writeLog_logFileOpen]; exact hmidopen
      have hlen : (writeLog l mid).bufferList.length = n := by
        rw [writeLog_bufferList]
        rw [hb] at h
        simpa using Nat.succ_injective h
      obtain ⟨ib, iw, io, ibf, ils⟩ := ih (writeLog l mid) hlen hopen2
      refine ⟨ib, ?_, io, ?_, ?_⟩
      · rw [iw, writeLog_fileWritten_open l mid hmidopen]
        simp [hmid]
      · rw [ibf, writeLog_buffering]
      · rw [ils, writeLog_leastSeverity]

@[simp] lemma rotateStep_deletedFiles (st : LoggerState) :
    (rotateStep st).deletedFiles = st.deletedFiles := by
  simp only [rotateStep, AddNewFileName]; split <;> rfl

/-- The new rotated name only depends on the base name and the clock. -/
lemma newLogName_eq_of (st1 st2 : LoggerState)
    (h1 : st1.fileNameBase = st2.fileNameBase) (h2 : st1.now = st2.now) :
    newLogName st1 = newLogName st2 := by
  rw [newLogName, newLogName, h1, h2]

/-- Unfolding of the rotation step when its guard holds. -/
lemma rotateStep_fired (st : LoggerState) (hopen : st.logFileOpen = true)
    (hsize : st.maxFileSize ≤ st.fileSize) :
    rotateStep st =
      { AddNewFileName
          { st with logFileOpen := false,
                    closedFiles := st.closedFiles ++ [st.logFileName] } with
        logFileOpen := true, fileSize := 0 } := by
  rw [rotateStep, if_pos ⟨hopen, hsize⟩]

/-! ## Claims -/

/-- C4: a message with severity `s` is recorded (appends a line to the open log
file) if and only if `s ≤` the current threshold, under the numeric syslog
ordering with `CRIT = 2` and `DEBUG = 7`. -/
theorem C4_threshold_filter (s : Int) (input : String) (st : LoggerState)
    (hopen : st.logFileOpen = true) :
    eLOG_CRIT = 2 ∧ eLOG_DEBUG = 7 ∧
    (((log s input st).fileWritten ≠ st.fileWritten) ↔ s ≤ st.leastSeverity) := by
  refine ⟨rfl, rfl, ?_⟩
  by_cases hle : s ≤ st.leastSeverity
  · rw [log, if_pos hle, writeLog_fileWritten_open _ _ hopen]
    refine ⟨fun _ => hle, fun _ hEq => ?_⟩
    have hlen := congrArg List.length hEq
    simp at hlen
  · simp [log, hle]

/-- C4 witness: a passing severity at a concrete state changes the file trace. -/
theorem C4_threshold_filter_witness :
    baseSt.logFileOpen = true ∧
    (eLOG_CRIT = 2 ∧ eLOG_DEBUG = 7 ∧
     (((log 5 "x" baseSt).fileWritten ≠ baseSt.fileWritten) ↔ 5 ≤ baseSt.leastSeverity)) :=
  ⟨rfl, C4_threshold_filter 5 "x" baseSt rfl⟩

/-- C5: after a full `EnforceLogFileLimits` pass the tracked list never exceeds
`mMaxFileNumber`, and the evicted files are exactly the successive heads
(index 0) of the list the eviction loop received, in order. -/
theorem C5_retention_limit (st : LoggerState) :
    (EnforceLogFileLimits st).logFileList.length ≤ st.maxFileNumber ∧
    (EnforceLogFileLimits st).logFileList =
      (rotateStep st).logFileList.drop
        ((rotateStep st).logFileList.length - st.maxFileNumber) ∧
    (EnforceLogFileLimits st).deletedFiles =
      st.deletedFiles ++ (rotateStep st).logFileList.take
        ((rotateStep st).logFileList.length - st.maxFileNumber) := by
  refine ⟨?_, ?_, ?_⟩
  · rw [EnforceLogFileLimits, evictState_logFileList, rotateStep_maxFileNumber]
    rw [List.length_drop]
    omega
  · rw [EnforceLogFileLimits, evictState_logFileList, rotateStep_maxFileNumber]
  · rw [EnforceLogFileLimits, evictState_deletedFiles, rotateStep_maxFileNumber,
      rotateStep_deletedFiles]

/-- C6: when the active file's size has reached `mMaxFileSize`, the next write's
limit check fires the rotation branch: the current file is closed, a fresh
timestamped file becomes the active one, and the rotation step grows the
tracked list by exactly one entry. -/
theorem C6_rotation_trigger (line : String) (st : LoggerState)
    (hopen : st.logFileOpen = true) (hsize : st.maxFileSize ≤ st.fileSize) :
    (rotateStep (appendOut line st)).logFileList = st.logFileList ++ [newLogName st] ∧
    (rotateStep (appendOut line st)).logFileList.length = st.logFileList.length + 1 ∧
    (rotateStep (appendOut line st)).closedFiles = st.closedFiles ++ [st.logFileName] ∧
    (rotateStep (appendOut line st)).logFileName = newLogName st ∧
    (rotateStep (appendOut line st)).logFileOpen = true ∧
    (writeLog line st).closedFiles = st.closedFiles ++ [st.logFileName] ∧
    (writeLog line st).logFileName = newLogName st := by
  have hopen2 : (appendOut line st).logFileOpen = true := by
    rw [appendOut_logFileOpen]; exact hopen
  have hsize2 : (appendOut line st).maxFileSize ≤ (appendOut line st).fileSize := by
    rw [appendOut_maxFileSize, appendOut_fileSize_open line st hopen]
    exact le_trans hsize (Nat.le_add_right _ _)
  have hfired := rotateStep_fired (appendOut line st) hopen2 hsize2
  refine ⟨?_, ?_, ?_, ?_, ?_, ?_, ?_⟩
  · rw [hfired]; simp [AddNewFileName]
    exact newLogName_eq_of _ _ rfl rfl
  · rw [hfired]; simp [AddNewFileName]
  · rw [hfired]; simp [AddNewFileName]
  · rw [hfired]; simp [AddNewFileName]
    exact newLogName_eq_of _ _ rfl rfl
  · rw [hfired]
  · rw [writeLog, EnforceLogFileLimits, evictState_closedFiles, hfired]
    simp [AddNewFileName]
  · rw [writeLog, EnforceLogFileLimits, evictState_logFileName, hfired]
    simp [AddNewFileName]
    exact newLogName_eq_of _ _ rfl rfl

/-- C6 witness: at a concrete over-size state the rotation conclusions hold. -/
theorem C6_rotation_trigger_witness :
    c6St.logFileOpen = true ∧ c6St.maxFileSize ≤ c6St.fileSize ∧
    ((rotateStep (appendOut "ln" c6St)).logFileList = c6St.logFileList ++ [newLogName c6St] ∧
     (rotateStep (appendOut "ln" c6St)).logFileList.length = c6St.logFileList.length + 1 ∧
     (rotateStep (appendOut "ln" c6St)).closedFiles = c6St.closedFiles ++ [c6St.logFileName] ∧
     (rotateStep (appendOut "ln" c6St)).logFileName = newLogName c6St ∧
     (rotateStep (appendOut "ln" c6St)).logFileOpen = true ∧
     (writeLog "ln" c6St).closedFiles = c6St.closedFiles ++ [c6St.logFileName] ∧
     (writeLog "ln" c6St).logFileName = newLogName c6St) :=
  ⟨rfl, by decide, C6_rotation_trigger "ln" c6St rfl (by decide)⟩

/-- C7: `setSeverity` rejects out-of-range values, leaving the threshold
unchanged while still recording a diagnostic line, and accepts in-range values,
installing them as the new threshold. -/
theorem C7_setSeverity_validation (s : Int) (st : LoggerState)
    (hopen : st.logFileOpen = true) :
    ((s < eLOG_CRIT ∨ eLOG_LAST < s) →
       (setSeverity s st).1 = false ∧
       (setSeverity s st).2.leastSeverity = st.leastSeverity ∧
       (setSeverity s st).2.fileWritten = st.fileWritten ++
         [TimeStamp true st.now ++ " ERROR: Invalid verbosity specified, "
            ++ toString s ++ "\n"]) ∧
    (¬ (s < eLOG_CRIT ∨ eLOG_LAST < s) →
       (setSeverity s st).1 = true ∧
       (setSeverity s st).2.leastSeverity = s) := by
  constructor
  · intro hbad
    rw [setSeverity, if_pos hbad]
    refine ⟨rfl, ?_, ?_⟩
    · rw [writeLog_leastSeverity]
    · rw [writeLog_fileWritten_open _ _ hopen]
  · intro hgood
    rw [setSeverity, if_neg hgood]
    exact ⟨rfl, by rw [writeLog_leastSeverity]⟩

/-- C7 witness: at a concrete state, the theorem applies to the out-of-range
value 99, which satisfies the rejection hypothesis. -/
theorem C7_setSeverity_validation_witness :
    baseSt.logFileOpen = true ∧
    ((99 : Int) < eLOG_CRIT ∨ eLOG_LAST < (99 : Int)) ∧
    (((99 : Int) < eLOG_CRIT ∨ eLOG_LAST < (99 : Int)) →
       (setSeverity 99 baseSt).1 = false ∧
       (setSeverity 99 baseSt).2.leastSeverity = baseSt.leastSeverity ∧
       (setSeverity 99 baseSt).2.fileWritten = baseSt.fileWritten ++
         [TimeStamp true baseSt.now ++ " ERROR: Invalid verbosity specified, "
            ++ toString (99 : Int) ++ "\n"]) ∧
    (¬ ((99 : Int) < eLOG_CRIT ∨ eLOG_LAST < (99 : Int)) →
       (setSeverity 99 baseSt).1 = true ∧
       (setSeverity 99 baseSt).2.leastSeverity = 99) :=
  ⟨rfl, by decide, (C7_setSeverity_validation 99 baseSt rfl).1,
   (C7_setSeverity_validation 99 baseSt rfl).2⟩

/-- C8: draining writes the buffered lines to the file in insertion order and
empties the buffer, and turning buffering off while lines are pending flushes
them all, with the mode flag ending up cleared. -/
theorem C8_buffer_fifo (st : LoggerState) (hopen : st.logFileOpen = true) :
    ((WriteToFile st).bufferList = [] ∧
     (WriteToFile st).fileWritten = st.fileWritten ++ st.bufferList) ∧
    (st.buffering = true →
       (SetBuffering false st).buffering = false ∧
       (SetBuffering false st).bufferList = [] ∧
       (SetBuffering false st).fileWritten = st.fileWritten ++ st.bufferList) := by
  obtain ⟨hb, hw, ho, hbf, hls⟩ := drainLoop_spec st.bufferList.length st rfl hopen
  refine ⟨⟨hb, hw⟩, fun hbuf => ?_⟩
  rw [SetBuffering, if_pos ⟨hbuf, rfl⟩]
  exact ⟨rfl, hb, hw⟩

/-- C8 witness: three concrete buffered lines drain in order L1, L2, L3. -/
theorem C8_buffer_fifo_witness :
    c8St.logFileOpen = true ∧
    (((WriteToFile c8St).bufferList = [] ∧
      (WriteToFile c8St).fileWritten = c8St.fileWritten ++ c8St.bufferList) ∧
     (c8St.buffering = true →
        (SetBuffering false c8St).buffering = false ∧
        (SetBuffering false c8St).bufferList = [] ∧
        (SetBuffering false c8St).fileWritten = c8St.fileWritten ++ c8St.bufferList)) :=
  ⟨rfl, C8_buffer_fifo c8St rfl⟩

/-- C10: the drain loop never reaches the null-string branch of `Get` (its
undefined-behaviour marker stays unchanged across any drain), and on a
non-empty buffer `Get` yields the head and shortens the buffer by exactly one. -/
theorem C10_get_head_safety (stA stB : LoggerState) (h : stB.bufferList ≠ []) :
    (drainLoop stA).madeNullString = stA.madeNullString ∧
    (Get stB).1 = some stB.bufferList.headI ∧
    (Get stB).2.bufferList = stB.bufferList.tail ∧
    (Get stB).2.bufferList.length + 1 = stB.bufferList.length := by
  refine ⟨drainLoop_madeNullString stA.bufferList.length stA rfl, ?_⟩
  rcases hb : stB.bufferList with _ | ⟨l, rest⟩
  · exact absurd hb h
  · simp [Get, hb]

/-- C10 witness: the safety statement at concrete states with a two-line buffer. -/
theorem C10_get_head_safety_witness :
    c10St.bufferList ≠ [] ∧
    ((drainLoop baseSt).madeNullString = baseSt.madeNullString ∧
     (Get c10St).1 = some c10St.bufferList.headI ∧
     (Get c10St).2.bufferList = c10St.bufferList.tail ∧
     (Get c10St).2.bufferList.length + 1 = c10St.bufferList.length) :=
  ⟨by decide, C10_get_head_safety baseSt c10St (by decide)⟩

/-- C1: code behaviour contradicting the buffering claim.  `log` never appends
to the line buffer: for every state the buffer is unchanged, and at a concrete
state with buffering enabled the line is written directly to the active file
while the buffer stays empty. -/
theorem C1_buffering_bypass_bug :
    (∀ (s : Int) (input : String) (st : LoggerState),
       (log s input st).bufferList = st.bufferList) ∧
    c1St.buffering = true ∧
    (log eLOG_INFO "hello" c1St).bufferList = [] ∧
    (log eLOG_INFO "hello" c1St).fileWritten = [logLine eLOG_INFO "hello" c1St] := by
  refine ⟨?_, rfl, by decide, by decide⟩
  intro s input st
  rw [log]
  split
  · rw [writeLog_bufferList]
  · rfl

/-- C2: code behaviour contradicting the scan-filter claim.  The directory
entry `log_2022-01-02_030405` satisfies the spec's length-plus-prefix
criterion for stem `log`, yet `MakeFileList` leaves the tracked list empty,
because the code compares `entry.substr(stem.size())` — the tail — with the
stem instead of the prefix. -/
theorem C2_scan_filter_bug :
    specScanMatch "log" "log_2022-01-02_030405" = true ∧
    ("log_2022-01-02_030405" : String).length =
      ("log" : String).length + ("_yyyy-MM-dd" : String).length
        + ("_HHmmss" : String).length ∧
    strTake "log_2022-01-02_030405" ("log" : String).length = "log" ∧
    (MakeFileList c2FS baseSt).1 = true ∧
    (MakeFileList c2FS baseSt).2.logFileList = [] := by
  refine ⟨by decide, by decide, by decide, by decide, by decide⟩

/-- C3 counterexample: on the fixed clock 2022-01-02 03:04:05 with base `log`,
the name created by `AddNewFileName` is `log_20220102_030405.log`, not the
dash-separated `log_2022-01-02_030405.log` form the claim states. -/
theorem C3_date_format_counterexample :
    (AddNewFileName baseSt).logFileName = "log_20220102_030405.log" ∧
    specNewLogName baseSt.fileNameBase baseSt.now = "log_2022-01-02_030405.log" ∧
    (AddNewFileName baseSt).logFileName ≠ specNewLogName baseSt.fileNameBase baseSt.now := by
  refine ⟨by decide, by decide, by decide⟩

/-- C3 amended: every newly created rotated file name is
`<baseName>_<YYYYMMDD>_<HHMMSS>.log` — the date embedded without separators —
and the name is appended to the tracked list and becomes the active name. -/
theorem C3_name_format_amended (st : LoggerState) :
    (AddNewFileName st).logFileName =
      st.fileNameBase ++ "_"
        ++ (padNum 4 st.now.date.year ++ padNum 2 st.now.date.month
              ++ padNum 2 st.now.date.day) ++ "_"
        ++ (padNum 2 st.now.time.hour ++ padNum 2 st.now.time.minute
              ++ padNum 2 st.now.time.second) ++ ".log" ∧
    (AddNewFileName st).logFileList
      = st.logFileList ++ [(AddNewFileName st).logFileName] ∧
    (AddNewFileName st).logFileName = newLogName st := by
  refine ⟨?_, rfl, rfl⟩
  simp [AddNewFileName, newLogName, GetDateStr, GetTimeStr, timeHMS]

/-- C9: code behaviour contradicting the working-directory restoration claim.
With a directory that `chdir` can enter but `opendir` cannot read, the scan
returns on the failure path with the process working directory left at the log
directory instead of the saved one. -/
theorem C9_cwd_not_restored_bug :
    c9St.cwd = "/w" ∧
    (MakeFileList c9FS c9St).2.cwd = "/d" ∧
    (MakeFileList c9FS c9St).2.cwd ≠ c9St.cwd ∧
    (MakeFileList c9FS c9St).1 = true := by
  refine ⟨rfl, by decide, by decide, by decide⟩
